import Mathlib

/-!
Verification of the question-extraction and persistence core of the
PythonAssignmentGenAIPeople repository.

The development shallowly embeds the relevant parts of the source:

* `Projects/project_5.py` — the bulk-extraction pipeline `main`, its
  chapter-wise segmentation loop, `insert_question` and
  `ensure_question_table`;
* `Projects/project_8.py` — the polymorphic question record model
  (`SubjectiveQuestion`, `TrueFalseQuestion`, `MultipleChoiceQuestion`),
  the interactive choice-collection loop of `run_interactive_menu`, and
  `ensure_question_table`;
* `Projects/project_4.py` — the match-flattening loop of `main`.

Python strings are modelled as Lean `String`s; operations that the kernel
cannot reduce (`String.trim`) are re-modelled over `String.data` so that all
definitions are executable and decidable on concrete inputs.  Regex matchers
are modelled extensionally: a compiled matcher is the function from a text to
the ordered list of its non-overlapping matches (which is exactly what
`finditer` yields), and `re.search(text, pos)` is the first listed match whose
start offset is at or beyond `pos`.  The external MySQL store is modelled as
an explicit state: a list of present tables and a list of inserted rows, with
`CREATE TABLE IF NOT EXISTS` given its create-if-absent semantics, and insert
failures injected through a failure oracle indexed by attempt number.
-/

namespace QuestionBank

/-- Model of Python's `str.strip()`: drop whitespace from both ends.
Operates on `String.data` so that the kernel can evaluate it. -/
def strip (s : String) : String :=
  ⟨((s.data.dropWhile Char.isWhitespace).reverse.dropWhile Char.isWhitespace).reverse⟩

/-- Model of Python's string slice `s[a:b]` (codepoint indices, `a ≤ b`). -/
def pySlice (s : String) (a b : Nat) : String :=
  ⟨(s.data.drop a).take (b - a)⟩

/-- Model of Python's `len(s)` (number of codepoints). -/
def strLen (s : String) : Nat :=
  s.data.length

/-! ## Question record model — `Projects/project_8.py`

The abstract base class `Question` with its three concrete subclasses is
embedded as a closed inductive type; each method of the hierarchy becomes a
total function dispatching on the variant. -/

/-- The three concrete `Question` subclasses of `project_8.py`, with the
fields their `__init__` methods store. -/
inductive QuestionRecord where
  | subjective (question_text subject_name chapter_name : String)
  | trueFalse (question_text subject_name chapter_name : String)
  | multipleChoice (question_text : String) (choices : List String)
      (subject_name chapter_name : String)
deriving DecidableEq

/-- `get_question_type` of each subclass (`project_8.py` lines 59-61,
101-103, 150-152). -/
def QuestionRecord.get_question_type : QuestionRecord → String
  | .subjective _ _ _ => "SUBJECTIVE"
  | .trueFalse _ _ _ => "TRUE_FALSE"
  | .multipleChoice _ _ _ _ => "MULTIPLE_CHOICE"

/-- `get_answer_options` of each subclass (`project_8.py` lines 63-65,
105-107, 154-156): `""` for subjective, the literal `"True\nFalse"` for
true/false, `"\n".join(self.choices)` for multiple choice. -/
def QuestionRecord.get_answer_options : QuestionRecord → String
  | .subjective _ _ _ => ""
  | .trueFalse _ _ _ => "True\nFalse"
  | .multipleChoice _ choices _ _ => String.intercalate "\n" choices

/-- The `question_text` attribute stored by `Question.__init__`. -/
def QuestionRecord.question_text : QuestionRecord → String
  | .subjective qt _ _ => qt
  | .trueFalse qt _ _ => qt
  | .multipleChoice qt _ _ _ => qt

/-- The `subject_name` attribute stored by `Question.__init__`. -/
def QuestionRecord.subject_name : QuestionRecord → String
  | .subjective _ sn _ => sn
  | .trueFalse _ sn _ => sn
  | .multipleChoice _ _ sn _ => sn

/-- The `chapter_name` attribute stored by `Question.__init__`. -/
def QuestionRecord.chapter_name : QuestionRecord → String
  | .subjective _ _ cn => cn
  | .trueFalse _ _ cn => cn
  | .multipleChoice _ _ _ cn => cn

/-- The parameter tuple each `store` method hands to the SQL `INSERT`
(`project_8.py` lines 75-83, 117-125, 166-174):
`(question_type, question_text, answer_options, subject_name, chapter_name)`. -/
def storeRow (q : QuestionRecord) : List String :=
  [q.get_question_type, q.question_text, q.get_answer_options,
   q.subject_name, q.chapter_name]

/-- `MultipleChoiceQuestion.__init__` (`project_8.py` lines 139-148): the
`choices` argument is stored as `choices if choices else []`, i.e. a falsy
argument (`None` or the empty list) is normalized to the empty list and
nothing else is validated. -/
def mkMultipleChoiceQuestion (question_text : String)
    (choices : Option (List String)) (subject_name chapter_name : String) :
    QuestionRecord :=
  QuestionRecord.multipleChoice question_text
    (match choices with
      | some cs => if cs.isEmpty then [] else cs
      | none => [])
    subject_name chapter_name

/-- The choice-collection loop of `run_interactive_menu`
(`project_8.py` lines 279-288).  The first argument is the stream of raw
`input()` lines; the second is the accumulated `choices` list.  An empty
(after strip) line finishes only once at least 2 choices were entered,
otherwise the loop re-prompts; a non-empty line is appended.  `none` models a
loop still waiting for further input when the stream runs out. -/
def collectChoices : List String → List String → Option (List String)
  | [], _ => none
  | raw :: rest, acc =>
    let opt := strip raw
    if opt = "" then
      if acc.length < 2 then collectChoices rest acc
      else some acc
    else collectChoices rest (acc ++ [opt])

/-! ## The relational store

The external MySQL database, as the two scripts use it: a set of present
tables and the list of inserted rows.  `CREATE TABLE IF NOT EXISTS` is given
its create-if-absent semantics. -/

/-- A row of the `Question` table as inserted by `insert_question` in
`project_5.py`. -/
structure Row where
  subject_name : String
  question_text : String
  answer_options : String
  chapter_name : String
deriving DecidableEq

/-- State of the relational store: which tables exist, and the inserted
rows in insertion order. -/
structure DBState where
  tables : List String
  rows : List Row
deriving DecidableEq

/-- Semantics of the `CREATE TABLE IF NOT EXISTS` statement both
`ensure_question_table` functions execute: create the table if absent,
report success either way. -/
def createTableIfNotExists (db : DBState) (name : String) : DBState × Bool :=
  if name ∈ db.tables then (db, true)
  else (⟨db.tables ++ [name], db.rows⟩, true)

/-- `ensure_question_table` of `project_5.py` (lines 44-64): issues
`CREATE TABLE IF NOT EXISTS Question (...)`. -/
def ensure_question_table (db : DBState) : DBState × Bool :=
  createTableIfNotExists db "Question"

/-- `ensure_question_table` of `project_8.py` (lines 203-225): issues
`CREATE TABLE IF NOT EXISTS Question_New (...)`. -/
def ensure_question_table_new (db : DBState) : DBState × Bool :=
  createTableIfNotExists db "Question_New"

/-! ## Chapter segmentation — `Projects/project_5.py` lines 173-180 -/

/-- One regex match of the chapter pattern: its span and the text of its
named capture group `chapter`. -/
structure ChapMatch where
  mstart : Nat
  mstop : Nat
  chapter : String
deriving DecidableEq

/-- `chapter_pattern.search(full_text, pos)`, expressed against the list of
all matches of the pattern in the text: the first match whose start offset is
at or beyond `pos`. -/
def nextSearch (ms : List ChapMatch) (pos : Nat) : Option ChapMatch :=
  ms.find? (fun m => decide (pos ≤ m.mstart))

/-- A chapter segment as the pipeline builds it: its trimmed name, the
offsets `chapter_start`/`chapter_end` computed by the loop, and the slice
`full_text[chapter_start:chapter_end]`. -/
structure ChapterSegment where
  name : String
  startOff : Nat
  endOff : Nat
  text : String
deriving DecidableEq

/-- The `chapter_end` the loop computes for a match `m`:
`next_chap.start() if next_chap else len(full_text)` where
`next_chap = chapter_pattern.search(full_text, chap_match.end())`
(`project_5.py` lines 177-178). -/
def segEndOff (textLen : Nat) (ms : List ChapMatch) (m : ChapMatch) : Nat :=
  match nextSearch ms m.mstop with
  | some nm => nm.mstart
  | none => textLen

/-- The chapter-wise segmentation loop of `main` (`project_5.py` lines
173-180): one segment per `finditer` match, named by the stripped `chapter`
group, spanning from the match start to the next search hit (or the document
end). -/
def segmentChapters (fullText : String) (ms : List ChapMatch) :
    List ChapterSegment :=
  ms.map (fun m =>
    ⟨strip m.chapter, m.mstart, segEndOff (strLen fullText) ms m,
     pySlice fullText m.mstart (segEndOff (strLen fullText) ms m)⟩)

/-- Well-formedness of a `finditer` result for non-empty matches: every
match is non-empty, matches are ordered by start offset and non-overlapping
(each match ends at or before the next one starts). -/
def wfMatches : List ChapMatch → Bool
  | [] => true
  | [m] => decide (m.mstart < m.mstop)
  | m :: n :: rest =>
    decide (m.mstart < m.mstop) && decide (m.mstop ≤ n.mstart)
      && wfMatches (n :: rest)

/-- The end offset the specification ascribes to segment `i`: the start
offset of match `i+1`, or the document length for the last match. -/
def segStopAt (textLen : Nat) (ms : List ChapMatch) (i : Nat) : Nat :=
  match ms[i + 1]? with
  | some n => n.mstart
  | none => textLen

/-- The segment the specification ascribes to index `i` (refinement
reference, written from the spec's words): name is the trimmed `chapter`
group of match `i`, text spans from match `i`'s start to match `i+1`'s start
or the document end. -/
def segmentSpecAt (fullText : String) (ms : List ChapMatch) (i : Nat) :
    Option ChapterSegment :=
  (ms[i]?).map (fun m =>
    ⟨strip m.chapter, m.mstart, segStopAt (strLen fullText) ms i,
     pySlice fullText m.mstart (segStopAt (strLen fullText) ms i)⟩)

/-! ## Bulk-extraction pipeline — `Projects/project_5.py` `main` -/

/-- One regex match of the question pattern: the texts of its named capture
groups `question` and `options`. -/
structure QMatch where
  question : String
  options : String
deriving DecidableEq

/-- A compiled question pattern, extensionally: the ordered list of its
matches in a given text. -/
abbrev QMatcher := String → List QMatch

/-- A compiled chapter pattern, extensionally: the ordered list of its
matches in a given text. -/
abbrev CMatcher := String → List ChapMatch

/-- The configuration keys `main` reads (`project_5.py` lines 116-117,
169): `regex`, `chapter_regex` and `subject_name`, each possibly absent. -/
structure Config where
  regex : Option String
  chapter_regex : Option String
  subject_name : Option String
deriving DecidableEq

/-- Python falsiness of `config.get(key)` for a pattern entry: the key is
absent or its value is the empty string (`project_5.py` line 119). -/
def patMissing : Option String → Bool
  | none => true
  | some s => s == ""

/-- The row `main` hands to `insert_question` for one question match inside
a chapter (`project_5.py` lines 182-192): stripped `question` and `options`
groups, the configured subject (default `"Unknown Subject"`), and the
segment's chapter name. -/
def mkRow (cfg : Config) (q : QMatch) (chapName : String) : Row :=
  ⟨cfg.subject_name.getD "Unknown Subject", strip q.question,
   strip q.options, chapName⟩

/-- `insert_question` (`project_5.py` lines 67-86): attempt the insert; a
`MySQLError` is caught and printed, the function returns nothing either way,
so the caller cannot observe failure.  `failAt k` is the failure oracle for
the `k`-th insert attempt of the run. -/
def insert_question (failAt : Nat → Bool) (k : Nat) (db : DBState)
    (r : Row) : DBState :=
  if failAt k then db else ⟨db.tables, db.rows ++ [r]⟩

/-- The insert loop of `main`: one `insert_question` call per extracted row,
incrementing `stored_count` unconditionally after each attempt
(`project_5.py` lines 186-193).  `k` is both the attempt index and the
running `stored_count`, which move in lockstep. -/
def runInserts (failAt : Nat → Bool) : DBState → Nat → List Row → DBState × Nat
  | db, k, [] => (db, k)
  | db, k, r :: rs => runInserts failAt (insert_question failAt k db r) (k + 1) rs

/-- The rows extracted by the nested chapter/question loops of `main`, in
document order (`project_5.py` lines 173-192).  Note this list does not
depend on the insert-failure oracle: extraction is unaffected by persistence
failures. -/
def extractedRows (cfg : Config) (qm : QMatcher) (cm : CMatcher)
    (fullText : String) : List Row :=
  (segmentChapters fullText (cm fullText)).flatMap
    (fun s => (qm s.text).map (fun q => mkRow cfg q s.name))

/-- The rows actually persisted when attempts start at index `k`: the
sublist of rows whose attempt the oracle lets succeed. -/
def survivorsFrom (failAt : Nat → Bool) : Nat → List Row → List Row
  | _, [] => []
  | k, r :: rs =>
    if failAt k then survivorsFrom failAt (k + 1) rs
    else r :: survivorsFrom failAt (k + 1) rs

/-- The rows whose insert attempt fails when attempts start at index `k`. -/
def failedFrom (failAt : Nat → Bool) : Nat → List Row → List Row
  | _, [] => []
  | k, r :: rs =>
    if failAt k then r :: failedFrom failAt (k + 1) rs
    else failedFrom failAt (k + 1) rs

/-- How a `main` run of `project_5.py` ends. -/
inductive RunOutcome where
  | configError
  | invalidPattern
  | dbUnavailable
  | tableFailed
  | done
deriving DecidableEq

/-- Result of a `main` run: its outcome, the final store state, the list of
rows handed to `insert_question` (the attempts), and the printed
`stored_count`. -/
structure RunResult where
  outcome : RunOutcome
  db : DBState
  attempts : List Row
  storedCount : Nat
deriving DecidableEq

/-- `main` of `project_5.py`, from the pattern checks onward (lines
116-196).  In source order: missing or empty `regex`/`chapter_regex` aborts
(line 119); a pattern that fails to compile aborts (lines 123-128); an
unavailable database aborts (lines 135-137); a failing
`ensure_question_table` aborts (lines 139-141); otherwise the table is
ensured, the document is segmented chapter-wise, every question match is
turned into a row and inserted, and the run ends with the final store and
`stored_count`.  Pattern compilation is abstracted by the two `compile`
oracles (`some` a matcher, or `none` for `re.error`); connection and
table-creation failures by the two Boolean oracles. -/
def mainRun (cfg : Config) (compileQ : String → Option QMatcher)
    (compileC : String → Option CMatcher) (dbAvailable : Bool)
    (tableFail : Bool) (failAt : Nat → Bool) (fullText : String)
    (db0 : DBState) : RunResult :=
  if patMissing cfg.regex || patMissing cfg.chapter_regex then
    ⟨.configError, db0, [], 0⟩
  else
    match compileQ (cfg.regex.getD ""), compileC (cfg.chapter_regex.getD "") with
    | none, _ => ⟨.invalidPattern, db0, [], 0⟩
    | some _, none => ⟨.invalidPattern, db0, [], 0⟩
    | some qm, some cm =>
      if dbAvailable then
        if tableFail then ⟨.tableFailed, db0, [], 0⟩
        else
          let db1 := (ensure_question_table db0).1
          let rows := extractedRows cfg qm cm fullText
          let res := runInserts failAt db1 0 rows
          ⟨.done, res.1, rows, res.2⟩
      else ⟨.dbUnavailable, db0, [], 0⟩

/-! ## Match flattening — `Projects/project_4.py` lines 119-127 -/

/-- What `pattern.findall` yields per match: a string when the pattern has
at most one capture group, a tuple of the groups otherwise. -/
inductive MatchResult where
  | scalar (s : String)
  | grouped (parts : List String)
deriving DecidableEq

/-- The per-match flattening of `main` (`project_4.py` lines 122-125):
a tuple becomes `"\n".join(part.strip() for part in m if part)` — the truthy
(non-empty) parts, each stripped, joined by newline; a scalar is stripped. -/
def flattenMatch : MatchResult → String
  | .scalar s => strip s
  | .grouped parts =>
    String.intercalate "\n" ((parts.filter (fun p => !p.data.isEmpty)).map strip)

/-- The `formatted_matches` loop of `main` (`project_4.py` lines 119-125),
appending one flattened entry per match. -/
def formatMatches (ms : List MatchResult) : List String :=
  ms.foldl (fun acc m => acc ++ [flattenMatch m]) []

/-! ## Concrete example inputs used by counterexamples and witnesses -/

/-- Configuration for the C1 example run. -/
def c1cfg : Config := ⟨some "q", some "c", some "S"⟩

/-- Question matcher for the C1 example run: two matches per chapter. -/
def c1qm : QMatcher := fun _ => [⟨"Q1", "o1"⟩, ⟨"Q2", "o2"⟩]

/-- Chapter matcher for the C1 example run: one chapter match. -/
def c1cm : CMatcher := fun _ => [⟨0, 1, "CH"⟩]

/-- Failure oracle for the C1 example run: the first insert attempt fails. -/
def c1fail : Nat → Bool := fun k => k == 0

/-- The completed C1 example run: two extracted records, first insert
fails. -/
def c1run : RunResult :=
  mainRun c1cfg (fun _ => some c1qm) (fun _ => some c1cm) true false c1fail
    "abc" ⟨[], []⟩

/-- Configuration for the C2 example. -/
def c2text : String := "0123456789abcdefghij"

/-- Two well-formed, non-overlapping chapter matches for the C2 example. -/
def c2ms : List ChapMatch := [⟨0, 5, " A "⟩, ⟨8, 12, "B"⟩]

/-- Configuration for the C5 example run. -/
def c5cfg : Config := ⟨some "q", some "c", some "S"⟩

/-- Question matcher for the C5 example run: one match whose `question`
group is whitespace only (empty after stripping). -/
def c5qm : QMatcher := fun _ => [⟨"  ", " o "⟩]

/-- Chapter matcher for the C5 example run. -/
def c5cm : CMatcher := fun _ => [⟨0, 1, "C"⟩]

/-- The single chapter segment of the C5 example run. -/
def c5seg : ChapterSegment := ⟨"C", 0, 2, "ab"⟩

/-- Configuration for the C6 example run. -/
def c6cfg : Config := ⟨some "q", some "c", none⟩

/-- Question matcher for the C6 example run (never reached: no chapter
matches). -/
def c6qm : QMatcher := fun _ => [⟨"x", "y"⟩]

/-- Chapter matcher for the C6 example run: zero matches. -/
def c6cm : CMatcher := fun _ => []

/-- Configuration with a missing question pattern for the C7 example. -/
def c7cfgMissing : Config := ⟨none, some "c", none⟩

/-- Configuration with both patterns present for the C7 example. -/
def c7cfgBoth : Config := ⟨some "q", some "c", none⟩

/-! ## Helper lemmas -/

/-- Folding an append of one image element at a time is `map`. -/
theorem foldl_append_map {α β : Type} (f : α → β) :
    ∀ (l : List α) (acc : List β),
      l.foldl (fun a m => a ++ [f m]) acc = acc ++ l.map f := by
  intro l
  induction l with
  | nil => intro acc; simp
  | cons a t ih => intro acc; simp [ih]

/-- Python truthiness of a string (`if part`) coincides with being distinct
from the empty string. -/
theorem string_truthy (p : String) : (!p.data.isEmpty) = decide (¬ p = "") := by
  cases p with
  | mk data =>
    cases data with
    | nil => rfl
    | cons c t => simp [String.ext_iff]

/-- Length of a `flatMap` as the sum of the lengths of the pieces. -/
theorem length_flatMap {α β : Type} (l : List α) (f : α → List β) :
    (l.flatMap f).length = (l.map (fun x => (f x).length)).sum := by
  induction l with
  | nil => simp
  | cons a t ih => simp [ih]

/-- `createTableIfNotExists` reports success, and running it a second time
with the same name leaves the store exactly as after the first run. -/
theorem createTable_sound (db : DBState) (name : String) :
    (createTableIfNotExists db name).2 = true ∧
    (createTableIfNotExists (createTableIfNotExists db name).1 name).2 = true ∧
    (createTableIfNotExists (createTableIfNotExists db name).1 name).1 =
      (createTableIfNotExists db name).1 := by
  unfold createTableIfNotExists
  by_cases h : name ∈ db.tables
  · simp [h]
  · simp [h]

/-! ## Claim theorems -/

/-- Claim C3, counterexample: `MultipleChoiceQuestion.__init__` performs no
minimum-choice validation, so constructing with choices `["1"]` does not fail
with a `ValidationError` — it succeeds and yields a normal record whose
formatted options are `"1"`.  (Construction with `["1","7"]` succeeds too,
as the claim says.) -/
theorem c3_construction_no_validation_counterexample :
    mkMultipleChoiceQuestion "q" (some ["1"]) "" "" =
      QuestionRecord.multipleChoice "q" ["1"] "" "" ∧
    QuestionRecord.get_answer_options
      (mkMultipleChoiceQuestion "q" (some ["1"]) "" "") = "1" ∧
    mkMultipleChoiceQuestion "q" (some ["1", "7"]) "" "" =
      QuestionRecord.multipleChoice "q" ["1", "7"] "" "" := by
  refine ⟨rfl, ?_, rfl⟩
  decide

/-- Claim C3, amended: the rejection of fewer than 2 choices lives in the
interactive choice-collection loop, not in `MultipleChoiceQuestion`
construction — the loop re-prompts on an empty line until at least 2
non-empty choices were entered, so whenever it terminates it hands the
constructor a list of at least 2 non-empty choices, and the constructor
stores that list unchanged (it validates nothing and never fails). -/
theorem c3_interactive_min_choices_amended :
    ∀ (inputs acc res : List String), (∀ c ∈ acc, c ≠ "") →
    collectChoices inputs acc = some res →
    2 ≤ res.length ∧ (∀ c ∈ res, c ≠ "") ∧
      ∀ qt sn cn, mkMultipleChoiceQuestion qt (some res) sn cn =
        QuestionRecord.multipleChoice qt res sn cn := by
  intro inputs
  induction inputs with
  | nil => intro acc res hacc h; simp [collectChoices] at h
  | cons raw rest ih =>
    intro acc res hacc h
    simp only [collectChoices] at h
    by_cases he : strip raw = ""
    · rw [if_pos he] at h
      by_cases hlen : acc.length < 2
      · rw [if_pos hlen] at h
        exact ih acc res hacc h
      · rw [if_neg hlen] at h
        obtain rfl : acc = res := Option.some.inj h
        refine ⟨by omega, hacc, ?_⟩
        intro qt sn cn
        cases acc with
        | nil => simp at hlen
        | cons c t => simp [mkMultipleChoiceQuestion]
    · rw [if_neg he] at h
      refine ih (acc ++ [strip raw]) res ?_ h
      intro c hc
      rcases List.mem_append.mp hc with h1 | h1
      · exact hacc c h1
      · rw [List.mem_singleton.mp h1]; exact he

/-- Claim C3, witness: entering `"1"`, then an empty line (the loop refuses
to stop at one choice), then `"7"`, then an empty line, yields the choice
list `["1", "7"]` with at least 2 entries, and the constructor stores it
unchanged. -/
theorem c3_interactive_min_choices_witness :
    2 ≤ (["1", "7"] : List String).length ∧
    mkMultipleChoiceQuestion "q2" (some ["1", "7"]) "s" "c" =
      QuestionRecord.multipleChoice "q2" ["1", "7"] "s" "c" := by
  have h := c3_interactive_min_choices_amended ["1", "", "7", ""] [] ["1", "7"]
    (by intro c hc; cases hc) (by decide)
  exact ⟨h.1, h.2.2 "q2" "s" "c"⟩

/-- Claim C4: `formatted_options` (`get_answer_options`) is a deterministic
function of the variant alone — `TrueFalse` always yields `"True\nFalse"`
whatever its fields, `Subjective` always yields `""`, and `MultipleChoice`
yields its choices newline-joined in insertion order, independent of the
other fields. -/
theorem c4_formatted_options_deterministic :
    ∀ (qt sn cn qt2 sn2 cn2 : String) (cs : List String),
    QuestionRecord.get_answer_options (.trueFalse qt sn cn) = "True\nFalse" ∧
    QuestionRecord.get_answer_options (.trueFalse qt sn cn) =
      QuestionRecord.get_answer_options (.trueFalse qt2 sn2 cn2) ∧
    QuestionRecord.get_answer_options (.subjective qt sn cn) = "" ∧
    QuestionRecord.get_answer_options (.subjective qt sn cn) =
      QuestionRecord.get_answer_options (.subjective qt2 sn2 cn2) ∧
    QuestionRecord.get_answer_options (.multipleChoice qt cs sn cn) =
      String.intercalate "\n" cs ∧
    QuestionRecord.get_answer_options (.multipleChoice qt cs sn cn) =
      QuestionRecord.get_answer_options (.multipleChoice qt2 cs sn2 cn2) := by
  intro qt sn cn qt2 sn2 cn2 cs
  exact ⟨rfl, rfl, rfl, rfl, rfl, rfl⟩

/-- Claim C8: for the whole `findall` result the loop produces exactly one
flattened entry per match in order; a grouped (tuple) match is flattened to
its truthy (non-empty) parts, each stripped, joined by newline — a sublist
of all stripped parts, so capture order is preserved — and a scalar match is
used as-is after stripping. -/
theorem c8_match_flattening :
    (∀ ms : List MatchResult, formatMatches ms = ms.map flattenMatch) ∧
    (∀ parts : List String,
      flattenMatch (.grouped parts) =
        String.intercalate "\n"
          ((parts.filter (fun p => decide (¬ p = ""))).map strip) ∧
      List.Sublist ((parts.filter (fun p => decide (¬ p = ""))).map strip)
        (parts.map strip)) ∧
    (∀ s : String, flattenMatch (.scalar s) = strip s) := by
  refine ⟨fun ms => ?_, fun parts => ⟨?_, ?_⟩, fun s => rfl⟩
  · simpa using foldl_append_map flattenMatch ms []
  · have hfun : (fun p : String => !p.data.isEmpty) =
        fun p => decide (¬ p = "") := funext string_truthy
    simp only [flattenMatch, hfun]
  · exact List.Sublist.map strip (List.filter_sublist parts)

/-- Claim C9: `ensure_question_table` (both the `Question` variant of
`project_5.py` and the `Question_New` variant of `project_8.py`) is
idempotent — each call reports success, and a second call leaves the store in
exactly the state the first call produced (create-if-absent semantics of the
`CREATE TABLE IF NOT EXISTS` statement it executes), so no schema object is
duplicated and no error arises on the second call. -/
theorem c9_ensure_schema_idempotent :
    ∀ db : DBState,
    (ensure_question_table db).2 = true ∧
    (ensure_question_table (ensure_question_table db).1).2 = true ∧
    (ensure_question_table (ensure_question_table db).1).1 =
      (ensure_question_table db).1 ∧
    (ensure_question_table_new db).2 = true ∧
    (ensure_question_table_new (ensure_question_table_new db).1).2 = true ∧
    (ensure_question_table_new (ensure_question_table_new db).1).1 =
      (ensure_question_table_new db).1 := by
  intro db
  have h1 := createTable_sound db "Question"
  have h2 := createTable_sound db "Question_New"
  exact ⟨h1.1, h1.2.1, h1.2.2, h2.1, h2.2.1, h2.2.2⟩

/-- Claim C10: `MultipleChoiceQuestion.__init__` accepts every choices
argument — `None` and the empty list are normalized to the empty list, a
non-empty list (even a singleton) is stored unchanged, no minimum is
enforced — and for a normalized-empty record `get_answer_options` is `""`,
so its stored row agrees with a `Subjective` record's row in every column
except the type tag. -/
theorem c10_multiplechoice_constructor_total :
    ∀ (qt sn cn c : String) (cs : List String),
    mkMultipleChoiceQuestion qt none sn cn =
      QuestionRecord.multipleChoice qt [] sn cn ∧
    mkMultipleChoiceQuestion qt (some []) sn cn =
      QuestionRecord.multipleChoice qt [] sn cn ∧
    mkMultipleChoiceQuestion qt (some (c :: cs)) sn cn =
      QuestionRecord.multipleChoice qt (c :: cs) sn cn ∧
    QuestionRecord.get_answer_options (mkMultipleChoiceQuestion qt none sn cn) = "" ∧
    QuestionRecord.get_answer_options (mkMultipleChoiceQuestion qt none sn cn) =
      QuestionRecord.get_answer_options (.subjective qt sn cn) ∧
    (storeRow (mkMultipleChoiceQuestion qt none sn cn)).tail =
      (storeRow (.subjective qt sn cn)).tail ∧
    (storeRow (mkMultipleChoiceQuestion qt none sn cn)).head? =
      some "MULTIPLE_CHOICE" ∧
    (storeRow (QuestionRecord.subjective qt sn cn)).head? = some "SUBJECTIVE" := by
  intro qt sn cn c cs
  exact ⟨rfl, rfl, rfl, rfl, rfl, rfl, rfl, rfl⟩

/-- The insert loop persists exactly the rows whose attempt the oracle lets
succeed, appended in order, and counts every attempt. -/
theorem runInserts_spec (failAt : Nat → Bool) :
    ∀ (rows : List Row) (db : DBState) (k : Nat),
      runInserts failAt db k rows =
        (⟨db.tables, db.rows ++ survivorsFrom failAt k rows⟩, k + rows.length) := by
  intro rows
  induction rows with
  | nil => intro db k; simp [runInserts, survivorsFrom]
  | cons r rs ih =>
    intro db k
    cases hk : failAt k <;>
      simp [runInserts, insert_question, survivorsFrom, hk, ih,
        List.append_assoc] <;> omega

/-- Every extracted row either survives or fails: the two tallies add up to
the number of extracted rows. -/
theorem survivors_failed_length (failAt : Nat → Bool) :
    ∀ (rows : List Row) (k : Nat),
      (survivorsFrom failAt k rows).length + (failedFrom failAt k rows).length =
        rows.length := by
  intro rows
  induction rows with
  | nil => intro k; simp [survivorsFrom, failedFrom]
  | cons r rs ih =>
    intro k
    have h2 := ih (k + 1)
    cases hk : failAt k <;> simp [survivorsFrom, failedFrom, hk] <;> omega

/-- Well-formedness is preserved when the first match is dropped. -/
theorem wfMatches_tail {m : ChapMatch} {rest : List ChapMatch}
    (h : wfMatches (m :: rest) = true) : wfMatches rest = true := by
  cases rest with
  | nil => rfl
  | cons n t =>
    simp only [wfMatches, Bool.and_eq_true] at h
    exact h.2

/-- In a well-formed match list the first match is non-empty. -/
theorem wfMatches_head_lt {a : ChapMatch} {rest : List ChapMatch}
    (h : wfMatches (a :: rest) = true) : a.mstart < a.mstop := by
  cases rest with
  | nil => simpa [wfMatches] using h
  | cons n t =>
    simp only [wfMatches, Bool.and_eq_true, decide_eq_true_eq] at h
    exact h.1.1

/-- In a well-formed match list every match is non-empty. -/
theorem wfMatches_mem_lt : ∀ {ms : List ChapMatch}, wfMatches ms = true →
    ∀ m ∈ ms, m.mstart < m.mstop := by
  intro ms
  induction ms with
  | nil => intro _ m hm; cases hm
  | cons a rest ih =>
    intro h m hm
    rcases List.mem_cons.mp hm with rfl | hm2
    · exact wfMatches_head_lt h
    · exact ih (wfMatches_tail h) m hm2

/-- In a well-formed match list the first match ends at or before the start
of every later match. -/
theorem wfMatches_head_le : ∀ {rest : List ChapMatch} {a : ChapMatch},
    wfMatches (a :: rest) = true → ∀ x ∈ rest, a.mstop ≤ x.mstart := by
  intro rest
  induction rest with
  | nil => intro a _ x hx; cases hx
  | cons n t ih =>
    intro a h x hx
    have hle : a.mstop ≤ n.mstart := by
      simp only [wfMatches, Bool.and_eq_true, decide_eq_true_eq] at h
      exact h.1.2
    have h2 : wfMatches (n :: t) = true := wfMatches_tail h
    rcases List.mem_cons.mp hx with rfl | hx2
    · exact hle
    · have h3 := ih h2 x hx2
      have h4 : n.mstart < n.mstop := wfMatches_head_lt h2
      omega

/-- The model of `re.search(full_text, pos)`: searching from the end offset
of match `i` of a well-formed match list finds exactly match `i+1` (or
nothing after the last match).  This is the key fact making the loop's
`chapter_end` computation agree with the positional specification. -/
theorem nextSearch_getElem :
    ∀ {ms : List ChapMatch}, wfMatches ms = true →
    ∀ (i : Nat) (m : ChapMatch), ms[i]? = some m →
    nextSearch ms m.mstop = ms[i + 1]? := by
  intro ms
  induction ms with
  | nil => intro _ i m hm; simp at hm
  | cons a rest ih =>
    intro h i m hm
    cases i with
    | zero =>
      rw [List.getElem?_cons_zero] at hm
      obtain rfl : a = m := Option.some.inj hm
      have hlt := wfMatches_head_lt h
      rw [nextSearch, List.find?_cons_of_neg _ (by simp; omega)]
      cases rest with
      | nil => simp
      | cons n t =>
        have hle : a.mstop ≤ n.mstart := by
          simp only [wfMatches, Bool.and_eq_true, decide_eq_true_eq] at h
          exact h.1.2
        rw [List.find?_cons_of_pos _ (by simpa using hle)]
        simp
    | succ j =>
      rw [List.getElem?_cons_succ] at hm
      have hmem : m ∈ rest := List.getElem?_mem hm
      have h1 : a.mstop ≤ m.mstart := wfMatches_head_le h m hmem
      have h2 : m.mstart < m.mstop :=
        wfMatches_mem_lt (wfMatches_tail h) m hmem
      have h3 : a.mstart < a.mstop := wfMatches_head_lt h
      rw [nextSearch, List.find?_cons_of_neg _ (by simp; omega)]
      have h4 := ih (wfMatches_tail h) j m hm
      rw [nextSearch] at h4
      rw [h4, List.getElem?_cons_succ]

/-- Claim C2: for a well-formed (ordered, non-overlapping, non-empty) list
of `n` chapter matches, segmentation returns exactly `n` segments; segment
`i` is exactly what the spec ascribes to index `i` — named by the stripped
`chapter` group of match `i`, starting at match `i`'s start offset and
ending at match `i+1`'s start offset, or at the document end for the last
match, with the corresponding text slice — hence consecutive segments are
adjacent (no gaps, no overlaps) and the last segment runs to the document
end: the segments partition `[first_match_start, document_end)`. -/
theorem c2_segmentation_partition (fullText : String) (ms : List ChapMatch)
    (hwf : wfMatches ms = true) :
    (segmentChapters fullText ms).length = ms.length ∧
    (∀ i, (segmentChapters fullText ms)[i]? = segmentSpecAt fullText ms i) ∧
    (∀ i s t, (segmentChapters fullText ms)[i]? = some s →
      (segmentChapters fullText ms)[i + 1]? = some t →
      s.endOff = t.startOff) ∧
    (∀ s, (segmentChapters fullText ms).getLast? = some s →
      s.endOff = strLen fullText) := by
  have hpt : ∀ i, (segmentChapters fullText ms)[i]? =
      segmentSpecAt fullText ms i := by
    intro i
    rw [segmentChapters, List.getElem?_map, segmentSpecAt]
    cases hmi : ms[i]? with
    | none => rfl
    | some m =>
      have hend : segEndOff (strLen fullText) ms m =
          segStopAt (strLen fullText) ms i := by
        rw [segEndOff, segStopAt, nextSearch_getElem hwf i m hmi]
      simp only [Option.map_some', hend]
  have hlen : (segmentChapters fullText ms).length = ms.length := by
    simp [segmentChapters]
  refine ⟨hlen, hpt, ?_, ?_⟩
  · intro i s t hs ht
    have h1 := hpt i
    have h2 := hpt (i + 1)
    rw [hs] at h1
    rw [ht] at h2
    cases hmi : ms[i]? with
    | none => rw [segmentSpecAt, hmi] at h1; simp at h1
    | some m =>
      cases hmj : ms[i + 1]? with
      | none => rw [segmentSpecAt, hmj] at h2; simp at h2
      | some n =>
        rw [segmentSpecAt, hmi, Option.map_some'] at h1
        rw [segmentSpecAt, hmj, Option.map_some'] at h2
        obtain rfl := Option.some.inj h1.symm
        obtain rfl := Option.some.inj h2.symm
        show segStopAt (strLen fullText) ms i = n.mstart
        rw [segStopAt, hmj]
  · intro s hs
    rw [List.getLast?_eq_getElem?, hlen, hpt (ms.length - 1)] at hs
    cases hmi : ms[ms.length - 1]? with
    | none => rw [segmentSpecAt, hmi] at hs; simp at hs
    | some m =>
      have hpos : 0 < ms.length := by
        by_contra hc
        push_neg at hc
        interval_cases hms : ms.length
        · rw [List.getElem?_eq_none (by omega)] at hmi
          cases hmi
      rw [segmentSpecAt, hmi, Option.map_some'] at hs
      obtain rfl := Option.some.inj hs.symm
      show segStopAt (strLen fullText) ms (ms.length - 1) = strLen fullText
      rw [segStopAt]
      have : ms[ms.length - 1 + 1]? = none :=
        List.getElem?_eq_none (by omega)
      rw [this]

/-- Claim C2, witness: the partition statement at a concrete document with
two well-formed chapter matches. -/
theorem c2_segmentation_partition_witness :
    wfMatches c2ms = true ∧
    (segmentChapters c2text c2ms).length = 2 ∧
    (segmentChapters c2text c2ms)[0]? = segmentSpecAt c2text c2ms 0 ∧
    (segmentChapters c2text c2ms)[1]? = segmentSpecAt c2text c2ms 1 := by
  have h := c2_segmentation_partition c2text c2ms (by decide)
  exact ⟨by decide, h.1, h.2.1 0, h.2.1 1⟩

/-- Claim C1, counterexample: in a run with 2 extracted records where the
gateway fails on the first insert, processing continues (one record is
persisted), but the terminal `stored_count` is 2, not the number of
successfully persisted records (1): `stored_count` is incremented
unconditionally after each attempt, and `insert_question` swallows the
failure without signalling it, so no `failed_count` exists. -/
theorem c1_terminal_count_counterexample :
    c1run.storedCount = 2 ∧ c1run.db.rows.length = 1 ∧
    ¬ c1run.storedCount = c1run.db.rows.length := by
  decide

/-- Claim C1, amended: an insert failure on record `k` does not stop the
processing of records `k+1..n` — every extracted record is attempted exactly
once, in order, and each record whose attempt succeeds is persisted (the
extracted-row list does not depend on the failure oracle at all).  However
the run's terminal count equals the total number of extracted records `n`
regardless of failures (the code keeps no failure tally and `insert_question`
reports nothing), and the number of actually persisted records is `n` minus
the number of failed inserts. -/
theorem c1_partial_failure_isolation_amended
    (cfg : Config) (compileQ : String → Option QMatcher)
    (compileC : String → Option CMatcher) (failAt : Nat → Bool)
    (fullText : String) (db0 : DBState) (qm : QMatcher) (cm : CMatcher)
    (h1 : patMissing cfg.regex = false)
    (h2 : patMissing cfg.chapter_regex = false)
    (hq : compileQ (cfg.regex.getD "") = some qm)
    (hc : compileC (cfg.chapter_regex.getD "") = some cm) :
    mainRun cfg compileQ compileC true false failAt fullText db0 =
      ⟨.done,
       ⟨(ensure_question_table db0).1.tables,
        (ensure_question_table db0).1.rows ++
          survivorsFrom failAt 0 (extractedRows cfg qm cm fullText)⟩,
       extractedRows cfg qm cm fullText,
       (extractedRows cfg qm cm fullText).length⟩ ∧
    (survivorsFrom failAt 0 (extractedRows cfg qm cm fullText)).length +
        (failedFrom failAt 0 (extractedRows cfg qm cm fullText)).length =
      (extractedRows cfg qm cm fullText).length := by
  constructor
  · unfold mainRun
    rw [h1, h2, hq, hc]
    simp [runInserts_spec]
  · exact survivors_failed_length failAt _ 0

/-- Claim C1, witness: the amended statement at the concrete C1 example
run. -/
theorem c1_partial_failure_isolation_witness :
    mainRun c1cfg (fun _ => some c1qm) (fun _ => some c1cm) true false c1fail
        "abc" ⟨[], []⟩ =
      ⟨.done,
       ⟨(ensure_question_table ⟨[], []⟩).1.tables,
        (ensure_question_table ⟨[], []⟩).1.rows ++
          survivorsFrom c1fail 0 (extractedRows c1cfg c1qm c1cm "abc")⟩,
       extractedRows c1cfg c1qm c1cm "abc",
       (extractedRows c1cfg c1qm c1cm "abc").length⟩ ∧
    (survivorsFrom c1fail 0 (extractedRows c1cfg c1qm c1cm "abc")).length +
        (failedFrom c1fail 0 (extractedRows c1cfg c1qm c1cm "abc")).length =
      (extractedRows c1cfg c1qm c1cm "abc").length :=
  c1_partial_failure_isolation_amended c1cfg (fun _ => some c1qm)
    (fun _ => some c1cm) c1fail "abc" ⟨[], []⟩ c1qm c1cm (by decide)
    (by decide) rfl rfl

/-- Claim C5: every question-pattern match inside a segmented chapter yields
a row handed to the gateway — the row of a match whose `question` group is
whitespace-only (empty after stripping) is in the attempt list like any
other, the attempt count is the full match count summed over the chapters
(no filtering anywhere), and the row carries exactly the stripped `question`
group, empty or not. -/
theorem c5_empty_question_still_persisted
    (cfg : Config) (qm : QMatcher) (cm : CMatcher) (fullText : String)
    (seg : ChapterSegment) (q : QMatch)
    (hseg : seg ∈ segmentChapters fullText (cm fullText))
    (hq : q ∈ qm seg.text) :
    mkRow cfg q seg.name ∈ extractedRows cfg qm cm fullText ∧
    (extractedRows cfg qm cm fullText).length =
      ((segmentChapters fullText (cm fullText)).map
        (fun s => (qm s.text).length)).sum ∧
    (mkRow cfg q seg.name).question_text = strip q.question := by
  refine ⟨?_, ?_, rfl⟩
  · exact List.mem_flatMap.mpr ⟨seg, hseg, List.mem_map_of_mem _ hq⟩
  · rw [extractedRows, length_flatMap]
    simp

/-- Claim C5, witness: a match with `question` group `"  "` (empty after
stripping) still yields a row in the attempt list, whose question text is
the empty string. -/
theorem c5_empty_question_still_persisted_witness :
    mkRow c5cfg ⟨"  ", " o "⟩ "C" ∈ extractedRows c5cfg c5qm c5cm "ab" ∧
    (mkRow c5cfg ⟨"  ", " o "⟩ "C").question_text = "" := by
  have h := c5_empty_question_still_persisted c5cfg c5qm c5cm "ab" c5seg
    ⟨"  ", " o "⟩ (by decide) (by decide)
  exact ⟨h.1, by decide⟩

/-- Claim C6: when the chapter pattern has zero matches in the document,
segmentation returns the empty sequence, no row is ever extracted or handed
to the gateway, and the run completes with `stored_count = 0` and an
unchanged row store. -/
theorem c6_zero_chapters_zero_persisted
    (cfg : Config) (compileQ : String → Option QMatcher)
    (compileC : String → Option CMatcher) (failAt : Nat → Bool)
    (fullText : String) (db0 : DBState) (qm : QMatcher) (cm : CMatcher)
    (h1 : patMissing cfg.regex = false)
    (h2 : patMissing cfg.chapter_regex = false)
    (hq : compileQ (cfg.regex.getD "") = some qm)
    (hc : compileC (cfg.chapter_regex.getD "") = some cm)
    (hm : cm fullText = []) :
    segmentChapters fullText (cm fullText) = [] ∧
    extractedRows cfg qm cm fullText = [] ∧
    mainRun cfg compileQ compileC true false failAt fullText db0 =
      ⟨.done, (ensure_question_table db0).1, [], 0⟩ := by
  have hseg : segmentChapters fullText (cm fullText) = [] := by rw [hm]; rfl
  have hrows : extractedRows cfg qm cm fullText = [] := by
    rw [extractedRows, hseg]; rfl
  refine ⟨hseg, hrows, ?_⟩
  unfold mainRun
  rw [h1, h2, hq, hc]
  simp [hrows, runInserts]

/-- Claim C6, witness: a concrete run whose chapter matcher finds nothing
segments to the empty sequence and persists zero records. -/
theorem c6_zero_chapters_zero_persisted_witness :
    segmentChapters "doc" (c6cm "doc") = [] ∧
    extractedRows c6cfg c6qm c6cm "doc" = [] ∧
    mainRun c6cfg (fun _ => some c6qm) (fun _ => some c6cm) true false
        (fun _ => false) "doc" ⟨[], []⟩ =
      ⟨.done, (ensure_question_table ⟨[], []⟩).1, [], 0⟩ :=
  c6_zero_chapters_zero_persisted c6cfg (fun _ => some c6qm)
    (fun _ => some c6cm) (fun _ => false) "doc" ⟨[], []⟩ c6qm c6cm
    (by decide) (by decide) rfl rfl rfl

/-- Claim C7: a missing or empty `regex`/`chapter_regex` configuration entry
aborts the run with the configuration error, and a pattern that fails to
compile (either of them) aborts with the invalid-pattern error — in every
case before any segmentation, extraction or persistence: no row is attempted,
the count is 0, and the store is untouched. -/
theorem c7_pattern_errors_halt_run
    (cfg : Config) (compileQ : String → Option QMatcher)
    (compileC : String → Option CMatcher) (dbAvailable tableFail : Bool)
    (failAt : Nat → Bool) (fullText : String) (db0 : DBState) :
    ((patMissing cfg.regex || patMissing cfg.chapter_regex) = true →
      mainRun cfg compileQ compileC dbAvailable tableFail failAt fullText db0 =
        ⟨.configError, db0, [], 0⟩) ∧
    (patMissing cfg.regex = false → patMissing cfg.chapter_regex = false →
      compileQ (cfg.regex.getD "") = none →
      mainRun cfg compileQ compileC dbAvailable tableFail failAt fullText db0 =
        ⟨.invalidPattern, db0, [], 0⟩) ∧
    (∀ qm : QMatcher, patMissing cfg.regex = false →
      patMissing cfg.chapter_regex = false →
      compileQ (cfg.regex.getD "") = some qm →
      compileC (cfg.chapter_regex.getD "") = none →
      mainRun cfg compileQ compileC dbAvailable tableFail failAt fullText db0 =
        ⟨.invalidPattern, db0, [], 0⟩) := by
  refine ⟨?_, ?_, ?_⟩
  · intro h
    unfold mainRun
    rw [h]
    rfl
  · intro h1 h2 hq
    unfold mainRun
    rw [h1, h2, hq]
    rfl
  · intro qm h1 h2 hq hc
    unfold mainRun
    rw [h1, h2, hq, hc]
    rfl

/-- Claim C7, witness: concrete runs with a missing question pattern, a
question pattern that fails to compile, and a chapter pattern that fails to
compile, each halting with the corresponding error and no work done. -/
theorem c7_pattern_errors_halt_run_witness :
    mainRun c7cfgMissing (fun _ => some (fun _ => []))
        (fun _ => some (fun _ => [])) true false (fun _ => false) "t"
        ⟨[], []⟩ =
      ⟨.configError, ⟨[], []⟩, [], 0⟩ ∧
    mainRun c7cfgBoth (fun _ => none) (fun _ => some (fun _ => [])) true
        false (fun _ => false) "t" ⟨[], []⟩ =
      ⟨.invalidPattern, ⟨[], []⟩, [], 0⟩ ∧
    mainRun c7cfgBoth (fun _ => some (fun _ => [])) (fun _ => none) true
        false (fun _ => false) "t" ⟨[], []⟩ =
      ⟨.invalidPattern, ⟨[], []⟩, [], 0⟩ := by
  refine ⟨?_, ?_, ?_⟩
  · exact (c7_pattern_errors_halt_run c7cfgMissing (fun _ => some (fun _ => []))
      (fun _ => some (fun _ => [])) true false (fun _ => false) "t"
      ⟨[], []⟩).1 (by decide)
  · exact (c7_pattern_errors_halt_run c7cfgBoth (fun _ => none)
      (fun _ => some (fun _ => [])) true false (fun _ => false) "t"
      ⟨[], []⟩).2.1 (by decide) (by decide) rfl
  · exact (c7_pattern_errors_halt_run c7cfgBoth (fun _ => some (fun _ => []))
      (fun _ => none) true false (fun _ => false) "t" ⟨[], []⟩).2.2
      (fun _ => []) (by decide) (by decide) rfl rfl

end QuestionBank
